import Mathlib

/-!
Verification of the VCD (Video Content Description) library core against its
specification.  The Python source `vcd/core.py` is shallowly embedded below:
dictionaries become insertion-ordered association lists, dictionary-key
presence becomes `Option`, Python exceptions (KeyError / AttributeError)
become `Except String` results paired with the state at the moment the
exception is raised (mutations performed before the raise are kept, as in
Python).  The modules `vcd/utils.py`, `vcd/types.py` and `vcd/schema.py` are
not part of the sources; the definitions taken from them are modelled from
the specification and are marked as such in their doc comments.
-/

/-! Association lists with Python-dict semantics: lookup by key, assignment
keeps the position of an existing key and appends a fresh key at the end,
`setdefault` appends a default only when the key is absent, deletion removes
the (unique) binding of the key. -/

deriving instance DecidableEq for Except

def alookup {α β : Type} [DecidableEq α] (k : α) : List (α × β) → Option β
  | [] => none
  | (k', v) :: rest => if k' = k then some v else alookup k rest

def aset {α β : Type} [DecidableEq α] (k : α) (v : β) : List (α × β) → List (α × β)
  | [] => [(k, v)]
  | (k', v') :: rest => if k' = k then (k', v) :: rest else (k', v') :: aset k v rest

def asetdefault {α β : Type} [DecidableEq α] (k : α) (v : β) (l : List (α × β)) : List (α × β) :=
  if (alookup k l).isSome then l else l ++ [(k, v)]

def aerase {α β : Type} [DecidableEq α] (k : α) : List (α × β) → List (α × β)
  | [] => []
  | (k', v') :: rest => if k' = k then rest else (k', v') :: aerase k rest

/-! Frame interval algebra.  A frame interval is an inclusive pair of
non-negative frame numbers; the source keeps two synchronized views (a list
of start/end records and a list of numeric pairs) that are always rebuilt
from one another, so the embedding keeps the single list of pairs. -/

/-- Modelled from the spec (utils.py is not under src/): insertion of one
interval into a list sorted ascending by interval start. -/
def insertByStart (x : Nat × Nat) : List (Nat × Nat) → List (Nat × Nat)
  | [] => [x]
  | y :: ys => if x.1 ≤ y.1 then x :: y :: ys else y :: insertByStart x ys

/-- Modelled from the spec: sort a list of intervals ascending by start
(the first step of `utils.fuse_frame_intervals`). -/
def sortByStart : List (Nat × Nat) → List (Nat × Nat)
  | [] => []
  | x :: xs => insertByStart x (sortByStart xs)

/-- Modelled from the spec: the merging pass of `utils.fuse_frame_intervals`.
Walking the start-sorted list, two neighbouring intervals are merged into a
single covering interval when they overlap or are contiguous, that is when
the start of the second does not exceed the end of the first by more than
one. -/
def fuseGo (a : Nat × Nat) : List (Nat × Nat) → List (Nat × Nat)
  | [] => [a]
  | b :: rest =>
    if b.1 ≤ a.2 + 1 then fuseGo (a.1, max a.2 b.2) rest
    else a :: fuseGo b rest

/-- Modelled from the spec: `utils.fuse_frame_intervals` sorts by start and
then merges overlapping or contiguous neighbours; it is the normalization
step after every mutation. -/
def fuseFI (l : List (Nat × Nat)) : List (Nat × Nat) :=
  match sortByStart l with
  | [] => []
  | a :: rest => fuseGo a rest

/-- Modelled from the spec: `utils.is_inside_frame_intervals` — a frame
number is inside an interval list when some interval satisfies
start ≤ n ≤ end. -/
def isInsideFIs (n : Nat) (l : List (Nat × Nat)) : Bool :=
  l.any fun p => decide (p.1 ≤ n ∧ n ≤ p.2)

/-- Modelled from the spec: `utils.rm_frame_from_frame_intervals` removes one
frame number from an interval list — the interval containing the frame is
deleted if it was that single frame, shrunk when the frame is one of its
endpoints, split in two when the frame is strictly interior, and intervals
not containing the frame are untouched. -/
def rmFrameFromFIs (l : List (Nat × Nat)) (n : Nat) : List (Nat × Nat) :=
  l.flatMap fun p =>
    if p.1 = n ∧ p.2 = n then []
    else if p.1 = n then [(n + 1, p.2)]
    else if p.2 = n then [(p.1, n - 1)]
    else if p.1 < n ∧ n < p.2 then [(p.1, n - 1), (n + 1, p.2)]
    else [p]

/-- Modelled from the spec: `utils.intersection_between_frame_interval_arrays`
emits, for every pair of intervals from the two lists, their overlap whenever
the larger start does not exceed the smaller end. -/
def intersectRaw (a b : List (Nat × Nat)) : List (Nat × Nat) :=
  a.flatMap fun x =>
    (b.filter fun y => decide (max x.1 y.1 ≤ min x.2 y.2)).map fun y =>
      (max x.1 y.1, min x.2 y.2)

/-- A canonical interval list: every interval is valid (start ≤ end) and each
consecutive pair is sorted, disjoint and non-contiguous (the end of the first
plus one is strictly below the start of the second). -/
def canonicalChk : List (Nat × Nat) → Bool
  | [] => true
  | [a] => decide (a.1 ≤ a.2)
  | a :: b :: rest =>
    decide (a.1 ≤ a.2) && decide (a.2 + 1 < b.1) && canonicalChk (b :: rest)

def Canonical (l : List (Nat × Nat)) : Prop := canonicalChk l = true

instance (l : List (Nat × Nat)) : Decidable (Canonical l) := by
  unfold Canonical; infer_instance

/-- The `FrameIntervals` class of core.py, collapsed to its single numeric
view (the record view `fis_dict` and the pair view `fis_num` of the source
are kept synchronized and carry the same information). -/
structure FrameIntervals where
  fis : List (Nat × Nat)
deriving DecidableEq

/-- The shapes accepted by the `FrameIntervals` constructor for a non-`None`
`frame_value`: a single integer, a single pair, or a list of pairs (the
source's list-of-records and list-of-pairs branches normalize identically). -/
inductive FrameValue where
  | single (n : Nat)
  | pair (p : Nat × Nat)
  | pairList (l : List (Nat × Nat))
deriving DecidableEq

/-- `FrameIntervals.__init__` on a `frame_value` argument: `None` gives the
empty set; an integer gives a one-frame interval; a list is fused; a single
pair is stored as given (the source does not fuse the single-tuple branch). -/
def FrameIntervals.ofValue : Option FrameValue → FrameIntervals
  | none => ⟨[]⟩
  | some (.single n) => ⟨[(n, n)]⟩
  | some (.pair p) => ⟨[p]⟩
  | some (.pairList l) => if l.isEmpty then ⟨[]⟩ else ⟨fuseFI l⟩

/-- `FrameIntervals.__init__` on a stored interval list (the list-of-records
branch): an empty list gives the empty set, otherwise the list is fused. -/
def FrameIntervals.ofDictList (l : List (Nat × Nat)) : FrameIntervals :=
  if l.isEmpty then ⟨[]⟩ else ⟨fuseFI l⟩

/-- `FrameIntervals` built from an optional stored list (`dict.get` result):
a missing key behaves as the empty set. -/
def FrameIntervals.ofOpt : Option (List (Nat × Nat)) → FrameIntervals
  | none => ⟨[]⟩
  | some l => FrameIntervals.ofDictList l

def FrameIntervals.empty (f : FrameIntervals) : Bool := f.fis.isEmpty

/-- `FrameIntervals.union`: fuse the concatenation of the argument's record
list with this one's, then rebuild through the constructor. -/
def FrameIntervals.union (self other : FrameIntervals) : FrameIntervals :=
  FrameIntervals.ofDictList (fuseFI (other.fis ++ self.fis))

/-- `FrameIntervals.intersection`: pairwise overlaps of the two numeric
views, rebuilt through the constructor (which fuses a non-empty list). -/
def FrameIntervals.intersection (self other : FrameIntervals) : FrameIntervals :=
  FrameIntervals.ofValue (some (.pairList (intersectRaw self.fis other.fis)))

def FrameIntervals.hasFrame (f : FrameIntervals) (n : Nat) : Bool :=
  isInsideFIs n f.fis

/-- `FrameIntervals.rm_frame`: remove one frame number from the set. -/
def FrameIntervals.rmFrame (f : FrameIntervals) (n : Nat) : FrameIntervals :=
  ⟨rmFrameFromFIs f.fis n⟩

/-! The document data model (`VCD.data`), with `Option` marking keys whose
presence or absence in the Python dictionaries is observable. -/

/-- The five element kinds of `ElementType` in core.py. -/
inductive ElementType where
  | object
  | action
  | event
  | context
  | relation
deriving DecidableEq

/-- A UID argument as the public API accepts it: a Python int or str. -/
inductive UidArg where
  | int (n : Int)
  | str (s : String)
deriving DecidableEq

/-- Modelled from the spec (types.py is not under src/): a payload record as
core.py consumes it.  core.py reads only the payload's name, its kind name
(`element_data.type.name`), an optional `in_stream` key and the nested
attribute map (attribute-kind name to the ordered list of attribute names);
the payload value itself is carried opaquely and never inspected, so it is
represented here by the name/kind/attributes triple. -/
structure ElementData where
  name : String
  kind : String
  in_stream : Option String
  attributes : Option (List (String × List String))
deriving DecidableEq

/-- One entry of an element's `<kind>_data_pointers` map. -/
structure DataPointer where
  type : String
  frame_intervals : List (Nat × Nat)
  attributes : Option (List (String × String))
deriving DecidableEq

/-- A root element record.  Every field mirrors a dictionary key of the
source element; `none` means the key is absent. -/
structure Element where
  name : Option String
  type : Option String
  frame_intervals : Option (List (Nat × Nat))
  ontology_uid : Option String
  stream : Option String
  data : Option (List (String × List ElementData))
  data_pointers : Option (List (String × DataPointer))
deriving DecidableEq

def Element.emptyElem : Element :=
  ⟨none, none, none, none, none, none, none⟩

/-- The per-frame record of one element inside a frame (its dynamic payload
snapshot only). -/
structure FrameElement where
  data : Option (List (String × List ElementData))
deriving DecidableEq

def FrameElement.emptyFE : FrameElement := ⟨none⟩

/-- One frame of the frames map: per element type present in the frame, a
map from UID to the element's dynamic snapshot, plus optional frame-level
properties (timestamp and free-form key/value map, both folded into one
association list as in the source's `frame_properties` dictionary). -/
structure Frame where
  elements : List (ElementType × List (String × FrameElement))
  frame_properties : Option (List (String × String))
deriving DecidableEq

def Frame.emptyFrame : Frame := ⟨[], none⟩

/-- A declared stream record. -/
structure StreamRec where
  description : String
  uri : String
  type : String
deriving DecidableEq

/-- The document metadata block. -/
structure Metadata where
  annotator : Option String
  comment : Option String
  properties : Option (List (String × String))
  streams : Option (List (String × StreamRec))
deriving DecidableEq

def Metadata.emptyMD : Metadata := ⟨none, none, none, none⟩

/-- The per-type `__lastUID` counters (each starts at -1). -/
structure LastUidTable where
  object : Int
  action : Int
  event : Int
  context : Int
  relation : Int
deriving DecidableEq

def LastUidTable.get (tb : LastUidTable) : ElementType → Int
  | .object => tb.object
  | .action => tb.action
  | .event => tb.event
  | .context => tb.context
  | .relation => tb.relation

def LastUidTable.set (tb : LastUidTable) : ElementType → Int → LastUidTable
  | .object, n => { tb with object := n }
  | .action, n => { tb with action := n }
  | .event, n => { tb with event := n }
  | .context, n => { tb with context := n }
  | .relation, n => { tb with relation := n }

/-- Modelled from the spec: `schema.vcd_schema_version` (schema.py is not
under src/) is the current wire-format version constant "4.3.0". -/
def vcdSchemaVersion : String := "4.3.0"

/-- The document state: the `data['vcd']` dictionary together with the
auxiliary instance state (`use_uuid` and the `__lastUID` counters). -/
structure VCD where
  schema_version : String
  frame_intervals : List (Nat × Nat)
  frames : List (Nat × Frame)
  elements : List (ElementType × List (String × Element))
  ontologies : Option (List (String × String))
  metadata : Option Metadata
  docName : Option String
  file_version : Option String
  use_uuid : Bool
  lastUID : LastUidTable
deriving DecidableEq

/-- `VCD.reset`: the fresh document. -/
def freshVCD : VCD :=
  { schema_version := vcdSchemaVersion
    frame_intervals := []
    frames := []
    elements := []
    ontologies := none
    metadata := none
    docName := none
    file_version := none
    use_uuid := false
    lastUID := ⟨-1, -1, -1, -1, -1⟩ }

/-! Queries (the read side of the public API used by the operations). -/

/-- `VCD.has`: the element-type bucket must exist and the (possibly absent)
UID must be one of its keys; a `None` UID is never a key. -/
def VCD.has (v : VCD) (t : ElementType) (uid : Option String) : Bool :=
  match alookup t v.elements with
  | none => false
  | some bucket =>
    match uid with
    | none => false
    | some u => (alookup u bucket).isSome

/-- Direct dictionary access `data['vcd'][type+'s'][uid]` as an `Option`. -/
def VCD.getElementOpt (v : VCD) (t : ElementType) (uid : String) : Option Element :=
  (alookup t v.elements).bind fun bucket => alookup uid bucket

/-- `VCD.get_ontology`. -/
def VCD.getOntology (v : VCD) (ontUid : String) : Option String :=
  match v.ontologies with
  | none => none
  | some onts => alookup ontUid onts

/-- `VCD.get_frame_intervals`: the stored record list rebuilt (and hence
fused) through the `FrameIntervals` constructor. -/
def VCD.getFrameIntervals (v : VCD) : FrameIntervals :=
  FrameIntervals.ofDictList v.frame_intervals

/-- `VCD.get_element_frame_intervals`: empty when the type bucket or the
element is missing, otherwise the element's (possibly absent)
`frame_intervals` entry rebuilt through the constructor. -/
def VCD.getElementFrameIntervals (v : VCD) (t : ElementType) (uid : Option String) : FrameIntervals :=
  match alookup t v.elements with
  | none => ⟨[]⟩
  | some bucket =>
    match uid with
    | none => ⟨[]⟩
    | some u =>
      match alookup u bucket with
      | none => ⟨[]⟩
      | some e => FrameIntervals.ofOpt e.frame_intervals

/-- The names of the `StreamType` enumerators. -/
def streamTypeNames : List String := ["camera", "lidar", "radar", "gps_imu", "other"]

/-- `VCD.has_stream`: the source evaluates `StreamType[stream]` — an enum
lookup by member name, which raises `KeyError` for any other string — and
then tests whether that enum member is a key of the stream map; the stream
map is keyed by declared stream names (strings), and an enum member is never
equal to a string, so the membership test is always false.  When the
document has no metadata or no stream map, the source falls through and
returns `None`, which behaves like `False` at every call site. -/
def hasStream (s : String) (v : VCD) : Except String Bool :=
  match v.metadata with
  | none => .ok false
  | some md =>
    match md.streams with
    | none => .ok false
    | some _ =>
      if s ∈ streamTypeNames then .ok false
      else .error ("KeyError: " ++ s)

/-! State helpers shared by the mutators. -/

/-- Write one element record (creating the type bucket and the UID entry as
needed, like the `setdefault` pair at the head of
`__create_update_element`). -/
def VCD.setElement (v : VCD) (t : ElementType) (uid : String) (e : Element) : VCD :=
  { v with elements := aset t (aset uid e ((alookup t v.elements).getD [])) v.elements }

/-- Overwrite one frame record. -/
def VCD.setFrame (v : VCD) (n : Nat) (fr : Frame) : VCD :=
  { v with frames := aset n fr v.frames }

/-- `VCD.__add_frame`: create an empty frame entry when absent. -/
def VCD.addFrame (v : VCD) (n : Nat) : VCD :=
  if (alookup n v.frames).isSome then v
  else { v with frames := v.frames ++ [(n, Frame.emptyFrame)] }

/-- `VCD.__rm_frame`: delete the frame entry (when present) and remove the
frame number from the document-wide frame-interval list. -/
def VCD.rmFrameEntry (v : VCD) (n : Nat) : VCD :=
  if (alookup n v.frames).isSome then
    { v with
      frames := aerase n v.frames
      frame_intervals := rmFrameFromFIs v.frame_intervals n }
  else v

/-- `VCD.__set_vcd_frame_intervals`: overwrite the document-wide list only
with a non-empty set. -/
def setVcdFrameIntervals (fis : FrameIntervals) (v : VCD) : VCD :=
  if fis.empty then v else { v with frame_intervals := fis.fis }

/-- `VCD.__update_vcd_frame_intervals`: union the document-wide list with a
non-empty input. -/
def updateVcdFrameIntervals (fis : FrameIntervals) (v : VCD) : VCD :=
  if fis.empty then v
  else setVcdFrameIntervals (v.getFrameIntervals.union fis) v

/-- Expansion of one inclusive interval into its frame numbers
(`range(fi[0], fi[1]+1)`). -/
def expandPair (p : Nat × Nat) : List Nat := List.range' p.1 (p.2 + 1 - p.1)

/-- Expansion of an interval list into its frame numbers, in loop order. -/
def expandAll (l : List (Nat × Nat)) : List Nat := l.flatMap expandPair

/-- The frame-side half of `VCD.__add_frames` for one frame: ensure the
per-type bucket and the per-UID entry exist in the frame. -/
def frameAddUid (t : ElementType) (uid : String) (fr : Frame) : Frame :=
  let bucket := (alookup t fr.elements).getD []
  { fr with elements := aset t (asetdefault uid FrameElement.emptyFE bucket) fr.elements }

/-- `VCD.__add_frames`: for every covered frame, create the frame and the
element's shadow entry inside it. -/
def addFrames (fis : FrameIntervals) (t : ElementType) (uid : String) (v : VCD) : VCD :=
  if fis.empty then v
  else
    (expandAll fis.fis).foldl
      (fun v f =>
        let v := v.addFrame f
        match alookup f v.frames with
        | some fr => v.setFrame f (frameAddUid t uid fr)
        | none => v)
      v

/-- Python `str.isnumeric` restricted to ASCII strings: non-empty and all
characters ASCII digits.  Python additionally treats non-ASCII Unicode
numerics (such as superscript digits) as numeric; statements that quantify
over UID strings therefore carry an `isAsciiStr` hypothesis, under which
this model agrees with Python exactly. -/
def isNumericStr (s : String) : Bool :=
  ¬s.toList.isEmpty && s.toList.all Char.isDigit

/-- ASCII-only strings: the fragment of Python's string semantics on which
`isNumericStr` coincides with `str.isnumeric`. -/
def isAsciiStr (s : String) : Bool :=
  s.toList.all fun c => decide (c.toNat < 128)

def isHexChar (c : Char) : Bool :=
  c.isDigit || (decide ('a' ≤ c) && decide (c ≤ 'f')) || (decide ('A' ≤ c) && decide (c ≤ 'F'))

/-- Split a character list on the hyphen character. -/
def splitOnDash : List Char → List (List Char)
  | [] => [[]]
  | c :: cs =>
    let rest := splitOnDash cs
    if c = '-' then [] :: rest
    else
      match rest with
      | [] => [[c]]
      | g :: gs => (c :: g) :: gs

/-- The hexadecimal-groups test of the canonical UUID pattern: five
hyphen-separated groups of lengths 8, 4, 4, 4 and 12. -/
def uuidGroups (cs : List Char) : Bool :=
  match splitOnDash cs with
  | [a, b, c, d, e] =>
    decide (a.length = 8) && decide (b.length = 4) && decide (c.length = 4) &&
    decide (d.length = 4) && decide (e.length = 12) &&
    a.all isHexChar && b.all isHexChar && c.all isHexChar && d.all isHexChar && e.all isHexChar
  | _ => false

/-- The canonical UUID pattern of core.py, with Python `re.match` semantics:
the pattern is anchored at the start, and the final dollar anchor matches
either at the very end of the string or just before a single trailing
newline (so a canonical UUID followed by one newline also matches and flips
UUID-mode). -/
def isUUIDStr (s : String) : Bool :=
  uuidGroups s.toList ||
    (s.toList.getLast? == some '\n' && uuidGroups s.toList.dropLast)

/-- The warning text emitted for an unsupported UID shape. -/
def warnBadUid : String :=
  "ERROR: User provided UID of unsupported type, please use string, either a quoted int or a UUID"

/-- The warning text emitted when an integer UID is supplied. -/
def warnIntUid : String :=
  "WARNING: UIDs should be provided as strings, with quotes."

/-- `VCD.__get_uid_to_assign`, as reached from `__add_element` (which has
already coerced an integer UID to its decimal string, so the argument here
is an optional string).  No UID: auto-allocate the next integer of the type
(or a fresh UUID in UUID-mode — external randomness, represented by a fixed
placeholder; no claim exercises that branch).  A numeric string is accepted
unchanged; a UUID-shaped string is accepted and flips the document into
UUID-mode; anything else produces a warning and leaves the initial empty
`uid_string`, which is returned. -/
def getUidToAssign (t : ElementType) (uid : Option String) (v : VCD) :
    VCD × String × List String :=
  match uid with
  | none =>
    if v.use_uuid then (v, "uuid4-placeholder", [])
    else
      let n := v.lastUID.get t + 1
      ({ v with lastUID := v.lastUID.set t n }, toString n, [])
  | some s =>
    if isNumericStr s then (v, s, [])
    else if isUUIDStr s then ({ v with use_uuid := true }, s, [])
    else (v, "", [warnBadUid])

/-- The data-pointer reshaping loop at the tail of
`VCD.__create_update_element`: for every pointer, intersect the new element
interval with the pointer's stored interval; only when the intersection is
non-empty is the pointer's interval replaced by it (an empty intersection
leaves the pointer entry untouched). -/
def reshapeOne (fis : FrameIntervals) (p : DataPointer) : DataPointer :=
  let fisInt := fis.intersection (FrameIntervals.ofDictList p.frame_intervals)
  if fisInt.empty then p
  else { p with frame_intervals := fisInt.fis }

def reshapePointers (fis : FrameIntervals) (edps : List (String × DataPointer)) :
    List (String × DataPointer) :=
  edps.map fun kp => (kp.1, reshapeOne fis kp.2)

/-- `VCD.__create_update_element`: copy-or-create the root record, overwrite
only the supplied fields (a non-empty interval replaces the stored one; the
ontology reference is attached only when the target URI is declared and
truthy; the stream reference only when `has_stream` reports true — and
`has_stream` may raise, in which case the fields written so far remain),
then reshape the data pointers against a newly supplied non-empty
interval. -/
def createUpdateElement (t : ElementType) (name semanticType : Option String)
    (fis : FrameIntervals) (uid : String) (ontUid : Option String)
    (stream : Option String) (v : VCD) : VCD × Except String Unit :=
  let e := (alookup uid ((alookup t v.elements).getD [])).getD Element.emptyElem
  let e := match name with
    | some nm => { e with name := some nm }
    | none => e
  let e := match semanticType with
    | some ty => { e with type := some ty }
    | none => e
  let e := if fis.empty then e else { e with frame_intervals := some fis.fis }
  let e := match ontUid with
    | some o => if ((v.getOntology o).getD "").isEmpty then e else { e with ontology_uid := some o }
    | none => e
  let v1 := v.setElement t uid e
  let streamChk : Except String Bool := match stream with
    | none => .ok false
    | some s => hasStream s v1
  match streamChk with
  | .error msg => (v1, .error msg)
  | .ok b =>
    let e := if b then { e with stream := stream } else e
    let v2 := v1.setElement t uid e
    if fis.empty then (v2, .ok ())
    else
      match e.data_pointers with
      | none => (v2, .ok ())
      | some edps =>
        (v2.setElement t uid { e with data_pointers := some (reshapePointers fis edps) }, .ok ())

/-- The shadow-removal loop of `VCD.__add_element` step 3.1.2: for every
previously covered frame no longer covered, delete this element's entry from
the frame's per-type bucket (a direct `del`, raising KeyError when the
frame, the bucket or the entry is missing), cascade deletion of a now-empty
bucket and, when the whole frame becomes empty, remove the frame through
`__rm_frame` (which also updates the document-wide interval list). -/
def rmShadowLoop (t : ElementType) (uid : String) (fisNew : FrameIntervals) :
    List Nat → VCD → VCD × Except String Unit
  | [], v => (v, .ok ())
  | f :: fs, v =>
    if fisNew.hasFrame f then rmShadowLoop t uid fisNew fs v
    else
      match alookup f v.frames with
      | none => (v, .error "KeyError: frame")
      | some fr =>
        match alookup t fr.elements with
        | none => (v, .error "KeyError: element bucket")
        | some bucket =>
          if (alookup uid bucket).isNone then (v, .error "KeyError: uid")
          else
            let bucket' := aerase uid bucket
            if bucket'.isEmpty then
              let fr' : Frame := { fr with elements := aerase t fr.elements }
              if fr'.elements.isEmpty && fr'.frame_properties.isNone then
                rmShadowLoop t uid fisNew fs ((v.setFrame f fr').rmFrameEntry f)
              else rmShadowLoop t uid fisNew fs (v.setFrame f fr')
            else rmShadowLoop t uid fisNew fs (v.setFrame f { fr with elements := aset t bucket' fr.elements })

/-- The shadow-addition loop of `VCD.__add_element` step 3.1.1: every newly
covered frame not inside the old interval gets a fresh shadow (under the
caller-supplied uid) and extends the document-wide interval list. -/
def addShadowLoop (t : ElementType) (uid : String) (fisOld : FrameIntervals) :
    List Nat → VCD → VCD
  | [], v => v
  | f :: fs, v =>
    if fisOld.hasFrame f then addShadowLoop t uid fisOld fs v
    else
      let fi := FrameIntervals.ofValue (some (.single f))
      addShadowLoop t uid fisOld fs (updateVcdFrameIntervals fi (addFrames fi t uid v))

/-- `VCD.__add_element`, the shared upsert: coerce int UIDs to strings (with
a warning), resolve the UID, update the root record, then reconcile the
per-frame shadows.  When no interval is supplied at all, the source only
calls `__add_frames` under `if vcd_frame_intervals.empty()` — a condition
under which `__add_frames` receives an empty set and does nothing; the
branch is preserved verbatim here (its comment in the source describes the
non-empty case). -/
def addElement (t : ElementType) (name semanticType : Option String)
    (fis : FrameIntervals) (uidArg ontArg : Option UidArg)
    (stream : Option String) (v : VCD) : VCD × Except String String × List String :=
  let (uid, w1) : Option String × List String := match uidArg with
    | none => (none, [])
    | some (.int n) => (some (toString n), [warnIntUid])
    | some (.str s) => (some s, [])
  let (ontUid, w2) : Option String × List String := match ontArg with
    | none => (none, [])
    | some (.int n) => (some (toString n), [warnIntUid])
    | some (.str s) => (some s, [])
  let elementExists := v.has t uid
  let (v, uidToAssign, w3) := getUidToAssign t uid v
  let ws := w1 ++ w2 ++ w3
  let fisOld := v.getElementFrameIntervals t uid
  match createUpdateElement t name semanticType fis uidToAssign ontUid stream v with
  | (v, .error e) => (v, .error e, ws)
  | (v, .ok ()) =>
    if fis.empty then
      let vcdFis := v.getFrameIntervals
      if vcdFis.empty then (addFrames vcdFis t uidToAssign v, .ok uidToAssign, ws)
      else (v, .ok uidToAssign, ws)
    else
      if elementExists then
        let v := addShadowLoop t (uid.getD "") fisOld (expandAll fis.fis) v
        match rmShadowLoop t (uid.getD "") fis (expandAll fisOld.fis) v with
        | (v, .error e) => (v, .error e, ws)
        | (v, .ok ()) => (v, .ok uidToAssign, ws)
      else
        let v := updateVcdFrameIntervals fis (addFrames fis t uidToAssign v)
        (v, .ok uidToAssign, ws)

/-- Replace the first payload with the same name, otherwise append
(the find-position-then-substitute idiom of
`__create_update_element_data`). -/
def replaceOrAppendED (ed : ElementData) : List ElementData → List ElementData
  | [] => [ed]
  | x :: xs => if x.name = ed.name then ed :: xs else x :: replaceOrAppendED ed xs

/-- The static branch of `VCD.__create_update_element_data`: store the
payload in the element's static bucket under its kind name, replacing any
prior payload of the same name. -/
def storeStaticED (t : ElementType) (uid : String) (ed : ElementData) (v : VCD) : VCD :=
  match v.getElementOpt t uid with
  | none => v
  | some e =>
    let bucket := e.data.getD []
    let lst := (alookup ed.kind bucket).getD []
    v.setElement t uid { e with data := some (aset ed.kind (replaceOrAppendED ed lst) bucket) }

/-- The dynamic branch of `VCD.__create_update_element_data` for one frame:
create the frame if missing, ensure the per-type bucket and the element's
entry, and replace-or-append the payload in the entry's data bucket. -/
def storeDynamicEDFrame (t : ElementType) (uid : String) (ed : ElementData) (v : VCD) (f : Nat) : VCD :=
  let v := v.addFrame f
  match alookup f v.frames with
  | none => v
  | some fr =>
    let bucket := (alookup t fr.elements).getD []
    let fe := (alookup uid bucket).getD FrameElement.emptyFE
    let dataBucket := fe.data.getD []
    let lst := (alookup ed.kind dataBucket).getD []
    let fe := { fe with data := some (aset ed.kind (replaceOrAppendED ed lst) dataBucket) }
    v.setFrame f { fr with elements := aset t (aset uid fe bucket) fr.elements }

/-- `VCD.__create_update_element_data`: after an `in_stream` declared-stream
check (which can raise, or silently skip the store when the stream is not
found), store the payload statically (empty interval) or inside every
covered frame (non-empty interval). -/
def createUpdateElementData (t : ElementType) (uid : String) (ed : ElementData)
    (fis : FrameIntervals) (v : VCD) : VCD × Except String Unit :=
  let core : VCD × Except String Unit :=
    if fis.empty then (storeStaticED t uid ed v, .ok ())
    else ((expandAll fis.fis).foldl (storeDynamicEDFrame t uid ed) v, .ok ())
  match ed.in_stream with
  | none => core
  | some s =>
    match hasStream s v with
    | .error msg => (v, .error msg)
    | .ok false => (v, .ok ())
    | .ok true => core

/-- `VCD.__create_update_element_data_pointers`: overwrite the pointer entry
for the payload's name with its kind, the supplied interval verbatim, and a
flattened attribute-name-to-kind map (last write wins). -/
def createUpdateElementDataPointers (t : ElementType) (uid : String) (ed : ElementData)
    (fis : FrameIntervals) (v : VCD) : VCD :=
  match v.getElementOpt t uid with
  | none => v
  | some e =>
    let edps := e.data_pointers.getD []
    let ptr : DataPointer :=
      { type := ed.kind
        frame_intervals := fis.fis
        attributes := match ed.attributes with
          | none => none
          | some attrs =>
            some (attrs.foldl (fun acc ap => ap.2.foldl (fun acc nm => aset nm ap.1 acc) acc) []) }
    v.setElement t uid { e with data_pointers := some (aset ed.name ptr edps) }

/-- `VCD.__add_element_data`: a silent no-op when the element does not
exist; otherwise, with a non-empty interval, first re-upsert the element
with the union of its interval and the payload's (reading the element's
mandatory `name` and `type` keys, which raise when absent), then store the
payload and rewrite its data pointer. -/
def addElementData (t : ElementType) (uid : String) (ed : ElementData)
    (fis : FrameIntervals) (v : VCD) : VCD × Except String Unit :=
  if ¬v.has t (some uid) then (v, .ok ())
  else
    let step1 : VCD × Except String Unit :=
      if fis.empty then (v, .ok ())
      else
        match v.getElementOpt t uid with
        | none => (v, .error "KeyError: element")
        | some e =>
          match e.name, e.type with
          | some nm, some ty =>
            let fisUnion := (v.getElementFrameIntervals t (some uid)).union fis
            match addElement t (some nm) (some ty) fisUnion (some (.str uid))
                (e.ontology_uid.map .str) e.stream v with
            | (v, .error msg, _) => (v, .error msg)
            | (v, .ok _, _) => (v, .ok ())
          | _, _ => (v, .error "KeyError: name or type")
    match step1 with
    | (v, .error msg) => (v, .error msg)
    | (v, .ok ()) =>
      match createUpdateElementData t uid ed fis v with
      | (v, .error msg) => (v, .error msg)
      | (v, .ok ()) => (createUpdateElementDataPointers t uid ed fis v, .ok ())

/-- `VCD.add_ontology`: materialize the ontology map, refuse an exact URI
duplicate (warning, no UID returned), otherwise register the URI under the
next sequential decimal-string key and return that key. -/
def addOntology (ontologyName : String) (v : VCD) : VCD × Option String :=
  let onts := v.ontologies.getD []
  let v := { v with ontologies := some onts }
  if onts.any fun kv => kv.2 == ontologyName then (v, none)
  else
    let key := toString onts.length
    ({ v with ontologies := some (onts ++ [(key, ontologyName)]) }, some key)

/-- `VCD.add_stream` (string stream-type branch; the enum branch stores the
enumerator's name, which is the same string). -/
def addStream (streamName uri description streamType : String) (v : VCD) : VCD :=
  let md := v.metadata.getD Metadata.emptyMD
  let streams := md.streams.getD []
  { v with metadata := some { md with streams := some (aset streamName ⟨description, uri, streamType⟩ streams) } }

/-- `VCD.add_frame_properties`: create the frame when missing, materialize
its `frame_properties` dictionary, set the timestamp and merge the supplied
properties.  The source never touches the document-wide frame-interval
list here. -/
def addFrameProperties (frameNum : Nat) (timestamp : Option String)
    (properties : Option (List (String × String))) (v : VCD) : VCD :=
  let v := v.addFrame frameNum
  match alookup frameNum v.frames with
  | none => v
  | some fr =>
    let props := fr.frame_properties.getD []
    let props := match timestamp with
      | some ts => aset "timestamp" ts props
      | none => props
    let props := match properties with
      | some ps => ps.foldl (fun acc kv => aset kv.1 kv.2 acc) props
      | none => props
    v.setFrame frameNum { fr with frame_properties := some props }

/-- `VCD.add_odometry`: create the frame when missing and merge the odometry
payload into its `frame_properties` dictionary; the document-wide
frame-interval list is not touched. -/
def addOdometry (frameNum : Nat) (odometryData : List (String × String)) (v : VCD) : VCD :=
  let v := v.addFrame frameNum
  match alookup frameNum v.frames with
  | none => v
  | some fr =>
    let props := odometryData.foldl (fun acc kv => aset kv.1 kv.2 acc) (fr.frame_properties.getD [])
    v.setFrame frameNum { fr with frame_properties := some props }

/-- The frames loop of `VCD.rm_element`: for every frame of the element's
recorded interval, subscript the frame and its per-type bucket (raising when
missing), delete the element's entry when present, and cascade deletion of
a now-empty bucket and a now-empty frame — the frame is deleted directly
here, without updating the document-wide frame-interval list. -/
def rmElemFramesLoop (t : ElementType) (uid : String) :
    List Nat → VCD → VCD × Except String Unit
  | [], v => (v, .ok ())
  | f :: fs, v =>
    match alookup f v.frames with
    | none => (v, .error "KeyError: frame")
    | some fr =>
      match alookup t fr.elements with
      | none => (v, .error "KeyError: element bucket")
      | some bucket =>
        let bucket' := if (alookup uid bucket).isSome then aerase uid bucket else bucket
        if bucket'.isEmpty then
          let fr' : Frame := { fr with elements := aerase t fr.elements }
          if fr'.elements.isEmpty && fr'.frame_properties.isNone then
            rmElemFramesLoop t uid fs { v with frames := aerase f v.frames }
          else rmElemFramesLoop t uid fs (v.setFrame f fr')
        else rmElemFramesLoop t uid fs (v.setFrame f { fr with elements := aset t bucket' fr.elements })

/-- `VCD.rm_element`: subscript the per-type map (raising when the type has
no bucket at all), silently return when the UID is unknown, then read the
element's `frame_intervals` key — raising `KeyError` when the element has
none — remove its shadows from every recorded frame and finally delete the
root record. -/
def rmElement (t : ElementType) (uid : String) (v : VCD) : VCD × Except String Unit :=
  match alookup t v.elements with
  | none => (v, .error "KeyError: element type map")
  | some bucket =>
    if ¬v.has t (some uid) then (v, .ok ())
    else
      match alookup uid bucket with
      | none => (v, .ok ())
      | some e =>
        match e.frame_intervals with
        | none => (v, .error "KeyError: frame_intervals")
        | some fis =>
          match rmElemFramesLoop t uid (expandAll fis) v with
          | (v, .error msg) => (v, .error msg)
          | (v, .ok ()) =>
            ({ v with elements := aset t (aerase uid ((alookup t v.elements).getD [])) v.elements }, .ok ())

/-! The public add/modify wrappers of core.py. -/

def addObject (name semanticType : String) (frameValue : Option FrameValue)
    (uidArg ontArg : Option UidArg) (stream : Option String) (v : VCD) :
    VCD × Except String String × List String :=
  addElement .object (some name) (some semanticType) (FrameIntervals.ofValue frameValue)
    uidArg ontArg stream v

def addAction (name semanticType : String) (frameValue : Option FrameValue)
    (uidArg ontArg : Option UidArg) (stream : Option String) (v : VCD) :
    VCD × Except String String × List String :=
  addElement .action (some name) (some semanticType) (FrameIntervals.ofValue frameValue)
    uidArg ontArg stream v

def addEvent (name semanticType : String) (frameValue : Option FrameValue)
    (uidArg ontArg : Option UidArg) (stream : Option String) (v : VCD) :
    VCD × Except String String × List String :=
  addElement .event (some name) (some semanticType) (FrameIntervals.ofValue frameValue)
    uidArg ontArg stream v

def addContext (name semanticType : String) (frameValue : Option FrameValue)
    (uidArg ontArg : Option UidArg) (stream : Option String) (v : VCD) :
    VCD × Except String String × List String :=
  addElement .context (some name) (some semanticType) (FrameIntervals.ofValue frameValue)
    uidArg ontArg stream v

def addRelation (name semanticType : String) (frameValue : Option FrameValue)
    (uidArg ontArg : Option UidArg) (v : VCD) :
    VCD × Except String String × List String :=
  addElement .relation (some name) (some semanticType) (FrameIntervals.ofValue frameValue)
    uidArg ontArg none v

/-- `VCD.__modify_element` / `modify_object`: the same upsert with every
field optional. -/
def modifyObject (uidArg : Option UidArg) (name semanticType : Option String)
    (frameValue : Option FrameValue) (ontArg : Option UidArg) (stream : Option String)
    (v : VCD) : VCD × Except String String × List String :=
  addElement .object name semanticType (FrameIntervals.ofValue frameValue) uidArg ontArg stream v

def addObjectData (uid : String) (objectData : ElementData) (frameValue : Option FrameValue)
    (v : VCD) : VCD × Except String Unit :=
  addElementData .object uid objectData (FrameIntervals.ofValue frameValue) v

def addActionData (uid : String) (actionData : ElementData) (frameValue : Option FrameValue)
    (v : VCD) : VCD × Except String Unit :=
  addElementData .action uid actionData (FrameIntervals.ofValue frameValue) v

/-- `VCD.add_event_data` forwards to `__add_element_data` with
`ElementType.evevt` as first argument.  `ElementType` declares only
object/action/event/context/relation, so evaluating the attribute raises
`AttributeError` on every call, before any argument is inspected or any
state is touched. -/
def addEventData (_uid : String) (_eventData : ElementData) (_frameValue : Option FrameValue)
    (v : VCD) : VCD × Except String Unit :=
  (v, .error "AttributeError: ElementType has no member evevt")

def addContextData (uid : String) (contextData : ElementData) (frameValue : Option FrameValue)
    (v : VCD) : VCD × Except String Unit :=
  addElementData .context uid contextData (FrameIntervals.ofValue frameValue) v

def rmObject (uid : String) (v : VCD) : VCD × Except String Unit :=
  rmElement .object uid v

/-- Modelled from the spec: the public frame-range-removal operation
(`rm_object_by_frame`, exercised by `test_remove_simple` but itself not
under src/).  Per the spec's frame-interval algebra (`rm_frame`) and its
testable property 3, removing an inclusive frame range from an element
removes, frame by frame, the element's shadow from each frame of the range
(cascading cleanup of a now-empty bucket and a now-empty frame, the latter
updating the document-wide union as direct frame removal does) and removes
each frame from the element's own frame-interval set. -/
def rmElementByFrame (t : ElementType) (uid : String) (range : Nat × Nat) (v : VCD) : VCD :=
  match v.getElementOpt t uid with
  | none => v
  | some _ =>
    (expandPair range).foldl
      (fun v f =>
        let v :=
          match alookup f v.frames with
          | none => v
          | some fr =>
            match alookup t fr.elements with
            | none => v
            | some bucket =>
              let bucket' := if (alookup uid bucket).isSome then aerase uid bucket else bucket
              if bucket'.isEmpty then
                let fr' : Frame := { fr with elements := aerase t fr.elements }
                if fr'.elements.isEmpty && fr'.frame_properties.isNone then
                  (v.setFrame f fr').rmFrameEntry f
                else v.setFrame f fr'
              else v.setFrame f { fr with elements := aset t bucket' fr.elements }
        match v.getElementOpt t uid with
        | none => v
        | some e =>
          v.setElement t uid
            { e with frame_intervals := e.frame_intervals.map fun l => rmFrameFromFIs l f })
      v

def rmObjectByFrame (uid : String) (range : Nat × Nat) (v : VCD) : VCD :=
  rmElementByFrame .object uid range v

/-! Helper queries used only by the claim statements. -/

/-- The shadow entry of one element inside one frame, if any. -/
def shadowOf (v : VCD) (f : Nat) (t : ElementType) (uid : String) : Option FrameElement :=
  (alookup f v.frames).bind fun fr =>
    (alookup t fr.elements).bind fun bucket => alookup uid bucket

/-- The C1 scenario document: an object "a" spanning frames 0-2, then an
object "b" added with no frame interval at all. -/
def c1Doc : VCD :=
  (addObject "b" "" none none none none
    (addObject "a" "" (some (.pair (0, 2))) none none none freshVCD).1).1

/-- The C7 scenario document: an object with interval (0,10) carrying a bbox
payload over (0,10) and a text payload over (6,10). -/
def c7Doc : VCD :=
  (addObjectData "0" ⟨"color", "text", none, none⟩ (some (.pair (6, 10)))
    (addObjectData "0" ⟨"position", "bbox", none, none⟩ (some (.pair (0, 10)))
      (addObject "John" "#Pedestrian" none none none none freshVCD).1).1).1

/-- The start components of a canonical list are monotone along consecutive
entries. -/
def SortedStarts : List (Nat × Nat) → Prop
  | [] => True
  | [_] => True
  | a :: b :: rest => a.1 ≤ b.1 ∧ SortedStarts (b :: rest)

/-! Lemmas about the frame-interval algebra. -/

/-- The set of frames covered by an interval list, in propositional form. -/
def CoversN (n : Nat) (l : List (Nat × Nat)) : Prop :=
  ∃ p ∈ l, p.1 ≤ n ∧ n ≤ p.2

theorem isInsideFIs_iff {n : Nat} {l : List (Nat × Nat)} :
    isInsideFIs n l = true ↔ CoversN n l := by
  simp [isInsideFIs, CoversN, List.any_eq_true]

theorem coversN_cons {n : Nat} {y : Nat × Nat} {ys : List (Nat × Nat)} :
    CoversN n (y :: ys) ↔ (y.1 ≤ n ∧ n ≤ y.2) ∨ CoversN n ys := by
  simp [CoversN]

theorem coversN_insertByStart {n : Nat} {x : Nat × Nat} {l : List (Nat × Nat)} :
    CoversN n (insertByStart x l) ↔ (x.1 ≤ n ∧ n ≤ x.2) ∨ CoversN n l := by
  induction l with
  | nil => simp [insertByStart, CoversN]
  | cons y ys ih =>
    by_cases h : x.1 ≤ y.1
    · rw [show insertByStart x (y :: ys) = x :: y :: ys from by simp [insertByStart, h]]
      rw [coversN_cons]
    · rw [show insertByStart x (y :: ys) = y :: insertByStart x ys from by
        simp [insertByStart, h]]
      rw [coversN_cons, ih, coversN_cons]
      tauto

theorem coversN_sortByStart {n : Nat} {l : List (Nat × Nat)} :
    CoversN n (sortByStart l) ↔ CoversN n l := by
  induction l with
  | nil => simp [sortByStart]
  | cons x xs ih =>
    rw [show sortByStart (x :: xs) = insertByStart x (sortByStart xs) from rfl]
    rw [coversN_insertByStart, ih, coversN_cons]

theorem coversN_fuseGo {n : Nat} {a : Nat × Nat} {l : List (Nat × Nat)} :
    CoversN n (fuseGo a l) → (a.1 ≤ n ∧ n ≤ a.2) ∨ CoversN n l := by
  induction l generalizing a with
  | nil => simp [fuseGo, CoversN]
  | cons b rest ih =>
    intro hc
    by_cases h : b.1 ≤ a.2 + 1
    · rw [show fuseGo a (b :: rest) = fuseGo (a.1, max a.2 b.2) rest from by
        simp [fuseGo, h]] at hc
      rcases ih hc with ⟨h1, h2⟩ | hrest
      · simp only at h1 h2
        by_cases hle : n ≤ a.2
        · exact Or.inl ⟨h1, hle⟩
        · have hb2 : n ≤ b.2 := by
            rcases Nat.le_total a.2 b.2 with hab | hba
            · rwa [Nat.max_eq_right hab] at h2
            · rw [Nat.max_eq_left hba] at h2; omega
          exact Or.inr (coversN_cons.mpr (Or.inl ⟨by omega, hb2⟩))
      · exact Or.inr (coversN_cons.mpr (Or.inr hrest))
    · rw [show fuseGo a (b :: rest) = a :: fuseGo b rest from by simp [fuseGo, h]] at hc
      rcases coversN_cons.mp hc with hA | hB
      · exact Or.inl hA
      · rcases ih hB with h1 | h2
        · exact Or.inr (coversN_cons.mpr (Or.inl h1))
        · exact Or.inr (coversN_cons.mpr (Or.inr h2))

theorem coversN_fuseFI {n : Nat} {l : List (Nat × Nat)} :
    CoversN n (fuseFI l) → CoversN n l := by
  unfold fuseFI
  intro h
  rw [← coversN_sortByStart (l := l)]
  rcases hs : sortByStart l with _ | ⟨a, rest⟩
  · rw [hs] at h
    simp [CoversN] at h
  · rw [hs] at h
    rcases coversN_fuseGo h with h1 | h2
    · exact ⟨a, by simp, h1⟩
    · rcases h2 with ⟨p, hp, hc⟩
      exact ⟨p, by simp [hp], hc⟩

theorem coversN_intersectRaw {n : Nat} {a b : List (Nat × Nat)} :
    CoversN n (intersectRaw a b) → CoversN n a ∧ CoversN n b := by
  intro h
  rcases h with ⟨p, hp, hc⟩
  simp only [intersectRaw, List.mem_flatMap, List.mem_map, List.mem_filter] at hp
  rcases hp with ⟨x, hx, y, ⟨hy, _⟩, rfl⟩
  constructor
  · exact ⟨x, hx, by constructor <;> omega⟩
  · exact ⟨y, hy, by constructor <;> omega⟩

theorem coversN_intersection {n : Nat} {f g : FrameIntervals} :
    CoversN n (f.intersection g).fis → CoversN n f.fis ∧ CoversN n g.fis := by
  intro h
  by_cases he : (intersectRaw f.fis g.fis).isEmpty
  · rw [show (f.intersection g).fis = [] from by
      simp [FrameIntervals.intersection, FrameIntervals.ofValue, he]] at h
    simp [CoversN] at h
  · rw [show (f.intersection g).fis = fuseFI (intersectRaw f.fis g.fis) from by
      simp [FrameIntervals.intersection, FrameIntervals.ofValue, he]] at h
    exact coversN_intersectRaw (coversN_fuseFI h)

/-! Lemmas about canonical interval lists and the identity of `fuse` on
them. -/

theorem canonical_cons {a b : Nat × Nat} {rest : List (Nat × Nat)}
    (h : Canonical (a :: b :: rest)) :
    a.1 ≤ a.2 ∧ a.2 + 1 < b.1 ∧ Canonical (b :: rest) := by
  simp only [Canonical, canonicalChk, Bool.and_eq_true, decide_eq_true_eq] at h ⊢
  tauto

theorem sortedStarts_of_canonical {l : List (Nat × Nat)} (h : Canonical l) :
    SortedStarts l := by
  induction l with
  | nil => trivial
  | cons a rest ih =>
    cases rest with
    | nil => trivial
    | cons b rest' =>
      rcases canonical_cons h with ⟨h1, h2, h3⟩
      exact ⟨by omega, ih h3⟩

theorem insertByStart_of_head_le {x : Nat × Nat} {l : List (Nat × Nat)}
    (h : ∀ y ∈ l.head?, x.1 ≤ y.1) : insertByStart x l = x :: l := by
  cases l with
  | nil => rfl
  | cons y ys =>
    have : x.1 ≤ y.1 := h y (by simp)
    simp [insertByStart, this]

theorem sortByStart_of_sorted {l : List (Nat × Nat)} (h : SortedStarts l) :
    sortByStart l = l := by
  induction l with
  | nil => rfl
  | cons x xs ih =>
    have hxs : SortedStarts xs := by
      cases xs with
      | nil => trivial
      | cons y ys => exact h.2
    have hx : ∀ y ∈ xs.head?, x.1 ≤ y.1 := by
      cases xs with
      | nil => simp
      | cons y ys =>
        intro z hz
        simp only [List.head?_cons, Option.mem_def, Option.some.injEq] at hz
        subst hz
        exact h.1
    simp [sortByStart, ih hxs, insertByStart_of_head_le hx]

theorem fuseGo_of_canonical {a : Nat × Nat} {l : List (Nat × Nat)}
    (h : Canonical (a :: l)) : fuseGo a l = a :: l := by
  induction l generalizing a with
  | nil => rfl
  | cons b rest ih =>
    rcases canonical_cons h with ⟨_, h2, h3⟩
    have hcond : ¬b.1 ≤ a.2 + 1 := by omega
    simp [fuseGo, hcond, ih h3]

theorem fuseFI_of_canonical {l : List (Nat × Nat)} (h : Canonical l) :
    fuseFI l = l := by
  unfold fuseFI
  rw [sortByStart_of_sorted (sortedStarts_of_canonical h)]
  cases l with
  | nil => rfl
  | cons a rest => exact fuseGo_of_canonical h

/-! Lemmas about association lists. -/

theorem alookup_map_values {α β γ : Type} [DecidableEq α] {k : α} {g : β → γ}
    {l : List (α × β)} :
    alookup k (l.map fun kp => (kp.1, g kp.2)) = (alookup k l).map g := by
  induction l with
  | nil => rfl
  | cons kv rest ih =>
    by_cases h : kv.1 = k
    · simp [alookup, h]
    · simp [alookup, h, ih]

theorem alookup_aset_self {α β : Type} [DecidableEq α] (k : α) (v : β) (l : List (α × β)) :
    alookup k (aset k v l) = some v := by
  induction l with
  | nil => simp [aset, alookup]
  | cons kv rest ih =>
    rcases kv with ⟨k', v'⟩
    by_cases h : k' = k
    · simp [aset, alookup, h]
    · simp [aset, alookup, h, ih]

/-- Writing an element record makes it retrievable under its UID. -/
theorem getElementOpt_setElement_self (v : VCD) (t : ElementType) (uid : String) (e : Element) :
    (v.setElement t uid e).getElementOpt t uid = some e := by
  unfold VCD.setElement VCD.getElementOpt
  simp [alookup_aset_self]

/-- Element lookup depends only on the element collections. -/
theorem getElementOpt_eq_of_elements {v w : VCD} (h : v.elements = w.elements)
    (t : ElementType) (uid : String) : v.getElementOpt t uid = w.getElementOpt t uid := by
  unfold VCD.getElementOpt
  rw [h]

theorem addFrame_elements (v : VCD) (n : Nat) : (v.addFrame n).elements = v.elements := by
  unfold VCD.addFrame
  split <;> rfl

theorem setFrame_elements (v : VCD) (n : Nat) (fr : Frame) :
    (v.setFrame n fr).elements = v.elements := rfl

/-- `__add_frames` touches only the frames map, never the element
collections. -/
theorem addFrames_elements (fis : FrameIntervals) (t : ElementType) (uid : String) (v : VCD) :
    (addFrames fis t uid v).elements = v.elements := by
  unfold addFrames
  split
  · rfl
  · generalize expandAll fis.fis = l
    induction l generalizing v with
    | nil => rfl
    | cons f fs ih =>
      rw [List.foldl_cons, ih]
      cases h : alookup f ((v.addFrame f).frames) with
      | none => simp [h, addFrame_elements]
      | some fr => simp [h, setFrame_elements, addFrame_elements]

/-- `__update_vcd_frame_intervals` touches only the document-wide interval
list, never the element collections. -/
theorem updateVcdFrameIntervals_elements (fis : FrameIntervals) (v : VCD) :
    (updateVcdFrameIntervals fis v).elements = v.elements := by
  unfold updateVcdFrameIntervals setVcdFrameIntervals
  split
  · rfl
  · split <;> rfl

/-- Whatever branch `__create_update_element` takes (including a raising
stream check, whose exception leaves the partially written record), the
targeted UID holds an element record afterwards. -/
theorem createUpdateElement_getElementOpt_isSome (t : ElementType)
    (name semanticType : Option String) (fis : FrameIntervals) (uid : String)
    (ontUid stream : Option String) (v : VCD) :
    ((createUpdateElement t name semanticType fis uid ontUid stream v).1.getElementOpt
      t uid).isSome = true := by
  simp only [createUpdateElement]
  repeat' split
  all_goals simp [getElementOpt_setElement_self]

/-- With no stream argument, `__create_update_element` cannot raise. -/
theorem createUpdateElement_none_ok (t : ElementType) (name semanticType : Option String)
    (fis : FrameIntervals) (uid : String) (ontUid : Option String) (v : VCD) :
    (createUpdateElement t name semanticType fis uid ontUid none v).2 = .ok () := by
  simp only [createUpdateElement]
  repeat' split
  all_goals rfl

/-! Claim theorems. -/

/-- Claim C1 (code bug): on a document already spanning frames 0-2, adding a
second object with no frame interval creates its root record but no
per-frame shadow entry in any of the spanned frames, and leaves the
document-wide span unchanged — the source's interval-less branch runs
`__add_frames` only under `if vcd_frame_intervals.empty()` (the opposite of
what its own comment describes), and with an empty set `__add_frames`
does nothing. -/
theorem C1_no_shadow_for_intervalless_element :
    (addObject "b" "" none none none none
        (addObject "a" "" (some (.pair (0, 2))) none none none freshVCD).1).2.1 = .ok "1" ∧
    (c1Doc.getElementOpt .object "1").isSome = true ∧
    c1Doc.frame_intervals = [(0, 2)] ∧
    shadowOf c1Doc 0 .object "1" = none ∧
    shadowOf c1Doc 1 .object "1" = none ∧
    shadowOf c1Doc 2 .object "1" = none ∧
    shadowOf c1Doc 0 .object "0" = some FrameElement.emptyFE := by
  decide

/-- Claim C2 (code bug): `add_event_data` is never the claimed no-op — it
routes through the non-existent `ElementType.evevt` and raises
`AttributeError` on every call, even with a UID that names no event, while
the same call on the object kind is the claimed silent no-op. -/
theorem C2_add_event_data_always_raises :
    VCD.has freshVCD .event (some "0") = false ∧
    addEventData "0" ⟨"age", "num", none, none⟩ none freshVCD =
      (freshVCD, .error "AttributeError: ElementType has no member evevt") ∧
    addObjectData "0" ⟨"age", "num", none, none⟩ none freshVCD = (freshVCD, .ok ()) := by
  decide

/-- Claim C3, counterexample: supplying the string UID "not-a-uid!" (neither
numeric nor UUID-shaped) to `add_object` on a fresh document does warn, but
it does not refuse the call — the UID resolver falls through with the empty
string, an object is created under the key "", and the document is
changed. -/
theorem C3_counterexample_element_created_under_empty_uid :
    let r := addObject "car" "" none (some (.str "not-a-uid!")) none none freshVCD
    (r.1.getElementOpt .object "").isSome = true ∧
    r.2.2 = [warnBadUid] ∧
    r.2.1 = .ok "" ∧
    ¬r.1 = freshVCD := by
  decide

/-- Claim C3, amended: for every add-element call — any element type, any
document, any name/semantic-type, frame-value, ontology and stream
arguments — supplying a string UID that is neither fully numeric nor
UUID-shaped (stated for ASCII UIDs, on which the embedded numeric test
agrees with Python's str.isnumeric, and with the regex's
trailing-newline-tolerant dollar anchor modelled) and that names no existing
element, the call is not refused: exactly the bad-UID warning is reported,
but the upsert proceeds under the empty-string UID — an element record is
created or updated under key "", and the empty-string UID is returned
whenever no stream argument is supplied (a supplied stream argument may make
the declared-stream check raise, after the record is already written).  A
supplied frame interval is processed for that empty-UID element exactly as
for a normal add, creating frames, its shadow entries and document span (the
final conjuncts exhibit this at frame range (0,2)). -/
theorem C3_amended_bad_uid_creates_empty_key (t : ElementType) (v : VCD) (s : String)
    (name semanticType : Option String) (frameValue : Option FrameValue)
    (ontUid stream : Option String)
    (_hA : isAsciiStr s = true) (h1 : isNumericStr s = false) (h2 : isUUIDStr s = false)
    (h3 : v.has t (some s) = false) :
    (addElement t name semanticType (FrameIntervals.ofValue frameValue) (some (.str s))
        (ontUid.map .str) stream v).2.2 = [warnBadUid] ∧
    ((addElement t name semanticType (FrameIntervals.ofValue frameValue) (some (.str s))
        (ontUid.map .str) stream v).1.getElementOpt t "").isSome = true ∧
    (stream = none →
      (addElement t name semanticType (FrameIntervals.ofValue frameValue) (some (.str s))
          (ontUid.map .str) stream v).2.1 = .ok "") ∧
    (addObject "a" "" (some (.pair (0, 2))) (some (.str "bad#uid")) none none
        freshVCD).2.1 = .ok "" ∧
    shadowOf (addObject "a" "" (some (.pair (0, 2))) (some (.str "bad#uid")) none none
        freshVCD).1 0 .object "" = some FrameElement.emptyFE ∧
    (addObject "a" "" (some (.pair (0, 2))) (some (.str "bad#uid")) none none
        freshVCD).1.frame_intervals = [(0, 2)] := by
  have hga : getUidToAssign t (some s) v = (v, "", [warnBadUid]) := by
    simp [getUidToAssign, h1, h2]
  have main :
      (addElement t name semanticType (FrameIntervals.ofValue frameValue) (some (.str s))
          (ontUid.map .str) stream v).2.2 = [warnBadUid] ∧
      ((addElement t name semanticType (FrameIntervals.ofValue frameValue) (some (.str s))
          (ontUid.map .str) stream v).1.getElementOpt t "").isSome = true ∧
      (stream = none →
        (addElement t name semanticType (FrameIntervals.ofValue frameValue) (some (.str s))
            (ontUid.map .str) stream v).2.1 = .ok "") := by
    cases ontUid with
    | none =>
      simp only [addElement, Option.map, hga, h3, Bool.false_eq_true, if_false,
        List.nil_append, List.append_nil]
      rcases hc : createUpdateElement t name semanticType (FrameIntervals.ofValue frameValue)
          "" none stream v with ⟨v1, r1⟩
      have hiso := createUpdateElement_getElementOpt_isSome t name semanticType
        (FrameIntervals.ofValue frameValue) "" none stream v
      rw [hc] at hiso
      cases r1 with
      | error msg =>
        simp only [hc]
        refine ⟨trivial, hiso, fun hs => ?_⟩
        subst hs
        have hok := createUpdateElement_none_ok t name semanticType
          (FrameIntervals.ofValue frameValue) "" none v
        rw [hc] at hok
        simp at hok
      | ok u =>
        cases u
        simp only [hc]
        by_cases hfe : (FrameIntervals.ofValue frameValue).empty = true
        · rw [if_pos hfe]
          by_cases hve : (v1.getFrameIntervals).empty = true
          · rw [if_pos hve]
            refine ⟨rfl, ?_, fun _ => rfl⟩
            rw [getElementOpt_eq_of_elements
                (addFrames_elements (v1.getFrameIntervals) t "" v1) t ""]
            exact hiso
          · rw [if_neg hve]
            exact ⟨rfl, hiso, fun _ => rfl⟩
        · rw [if_neg hfe]
          refine ⟨rfl, ?_, fun _ => rfl⟩
          rw [getElementOpt_eq_of_elements
              (updateVcdFrameIntervals_elements (FrameIntervals.ofValue frameValue)
                (addFrames (FrameIntervals.ofValue frameValue) t "" v1)) t "",
            getElementOpt_eq_of_elements
              (addFrames_elements (FrameIntervals.ofValue frameValue) t "" v1) t ""]
          exact hiso
    | some o =>
      simp only [addElement, Option.map, hga, h3, Bool.false_eq_true, if_false,
        List.nil_append, List.append_nil]
      rcases hc : createUpdateElement t name semanticType (FrameIntervals.ofValue frameValue)
          "" (some o) stream v with ⟨v1, r1⟩
      have hiso := createUpdateElement_getElementOpt_isSome t name semanticType
        (FrameIntervals.ofValue frameValue) "" (some o) stream v
      rw [hc] at hiso
      cases r1 with
      | error msg =>
        simp only [hc]
        refine ⟨trivial, hiso, fun hs => ?_⟩
        subst hs
        have hok := createUpdateElement_none_ok t name semanticType
          (FrameIntervals.ofValue frameValue) "" (some o) v
        rw [hc] at hok
        simp at hok
      | ok u =>
        cases u
        simp only [hc]
        by_cases hfe : (FrameIntervals.ofValue frameValue).empty = true
        · rw [if_pos hfe]
          by_cases hve : (v1.getFrameIntervals).empty = true
          · rw [if_pos hve]
            refine ⟨rfl, ?_, fun _ => rfl⟩
            rw [getElementOpt_eq_of_elements
                (addFrames_elements (v1.getFrameIntervals) t "" v1) t ""]
            exact hiso
          · rw [if_neg hve]
            exact ⟨rfl, hiso, fun _ => rfl⟩
        · rw [if_neg hfe]
          refine ⟨rfl, ?_, fun _ => rfl⟩
          rw [getElementOpt_eq_of_elements
              (updateVcdFrameIntervals_elements (FrameIntervals.ofValue frameValue)
                (addFrames (FrameIntervals.ofValue frameValue) t "" v1)) t "",
            getElementOpt_eq_of_elements
              (addFrames_elements (FrameIntervals.ofValue frameValue) t "" v1) t ""]
          exact hiso
  exact ⟨main.1, main.2.1, main.2.2, by decide, by decide, by decide⟩

/-- A closed instance of the amended claim C3. -/
theorem C3_amended_witness :
    isAsciiStr "car#7" = true ∧ isNumericStr "car#7" = false ∧ isUUIDStr "car#7" = false ∧
    VCD.has freshVCD .object (some "car#7") = false ∧
    ((addElement .object (some "car") (some "#Car") (FrameIntervals.ofValue none)
        (some (.str "car#7")) (Option.map UidArg.str none) none freshVCD).2.2 = [warnBadUid] ∧
      ((addElement .object (some "car") (some "#Car") (FrameIntervals.ofValue none)
          (some (.str "car#7")) (Option.map UidArg.str none) none
          freshVCD).1.getElementOpt .object "").isSome = true ∧
      ((none : Option String) = none →
        (addElement .object (some "car") (some "#Car") (FrameIntervals.ofValue none)
            (some (.str "car#7")) (Option.map UidArg.str none) none freshVCD).2.1 = .ok "") ∧
      (addObject "a" "" (some (.pair (0, 2))) (some (.str "bad#uid")) none none
          freshVCD).2.1 = .ok "" ∧
      shadowOf (addObject "a" "" (some (.pair (0, 2))) (some (.str "bad#uid")) none none
          freshVCD).1 0 .object "" = some FrameElement.emptyFE ∧
      (addObject "a" "" (some (.pair (0, 2))) (some (.str "bad#uid")) none none
          freshVCD).1.frame_intervals = [(0, 2)]) :=
  ⟨by decide, by decide, by decide, by decide,
    C3_amended_bad_uid_creates_empty_key .object freshVCD "car#7" (some "car") (some "#Car")
      none none none (by decide) (by decide) (by decide) (by decide)⟩

/-- Claim C4, counterexample: an object with interval (0,10) carrying a text
payload pointed over (6,10) is modified down to interval (0,5); the pointer's
intersection with the new interval is empty, so the pointer keeps its stale
interval (6,10), which covers frame 10 while the element's interval does
not — the containment invariant is violated after the shrink. -/
theorem C4_counterexample_stale_pointer_exceeds_element :
    let v1 := (addObject "car" "" (some (.pair (0, 10))) none none none freshVCD).1
    let v2 := (addObjectData "0" ⟨"color", "text", none, none⟩ (some (.pair (6, 10))) v1).1
    let r := modifyObject (some (.str "0")) none none (some (.pair (0, 5))) none none v2
    r.2.1 = .ok "0" ∧
    ((r.1.getElementOpt .object "0").map Element.frame_intervals) = some (some [(0, 5)]) ∧
    (((r.1.getElementOpt .object "0").bind Element.data_pointers).bind (alookup "color")) =
      some ⟨"text", [(6, 10)], none⟩ ∧
    isInsideFIs 10 [(6, 10)] = true ∧
    isInsideFIs 10 [(0, 5)] = false := by
  decide

/-- Claim C4, amended: when an upsert replaces an element's interval with a
non-empty interval, the pointer-reshaping step leaves every data-pointer
entry either with an interval contained in the new element interval (the
non-empty-intersection case, where it becomes the intersection) or exactly
equal to its previous entry (the empty-intersection case, whose stale
interval may exceed the element's). -/
theorem C4_amended_pointer_contained_or_stale (fis : FrameIntervals)
    (edps : List (String × DataPointer)) (nm : String) (p : DataPointer)
    (h : alookup nm (reshapePointers fis edps) = some p) :
    (∀ n : Nat, isInsideFIs n p.frame_intervals = true → isInsideFIs n fis.fis = true) ∨
      alookup nm edps = some p := by
  rw [reshapePointers, alookup_map_values] at h
  rcases Option.map_eq_some'.mp h with ⟨p0, hp0, htr⟩
  simp only [reshapeOne] at htr
  by_cases he : (fis.intersection (FrameIntervals.ofDictList p0.frame_intervals)).empty
  · rw [if_pos he] at htr
    subst htr
    exact Or.inr hp0
  · rw [if_neg he] at htr
    subst htr
    refine Or.inl fun n hin => ?_
    have hc : CoversN n (fis.intersection (FrameIntervals.ofDictList p0.frame_intervals)).fis :=
      isInsideFIs_iff.mp hin
    exact isInsideFIs_iff.mpr (coversN_intersection hc).1

/-- A closed instance of the amended claim C4 (the stale case). -/
theorem C4_amended_witness :
    alookup "color" (reshapePointers ⟨[(0, 5)]⟩ [("color", ⟨"text", [(6, 10)], none⟩)]) =
      some ⟨"text", [(6, 10)], none⟩ ∧
    ((∀ n : Nat, isInsideFIs n (⟨"text", [(6, 10)], none⟩ : DataPointer).frame_intervals = true →
        isInsideFIs n (⟨[(0, 5)]⟩ : FrameIntervals).fis = true) ∨
      alookup "color" [("color", (⟨"text", [(6, 10)], none⟩ : DataPointer))] =
        some ⟨"text", [(6, 10)], none⟩) :=
  ⟨by decide, C4_amended_pointer_contained_or_stale ⟨[(0, 5)]⟩ _ "color" _ (by decide)⟩

/-- Claim C5, counterexample: a stream named "Camera1" is declared, yet
`add_object` with that stream argument does not attach the reference — the
declared-stream check raises a key-lookup error (the enum lookup
`StreamType[stream]` fails for any non-enumerator name), aborting the call
after the element record was created without the stream field. -/
theorem C5_counterexample_declared_stream_not_attached :
    let v1 := addStream "Camera1" "uri-c" "front camera" "camera" freshVCD
    let r := addObject "car" "" none none none (some "Camera1") v1
    ((v1.metadata.bind Metadata.streams).bind (alookup "Camera1")).isSome = true ∧
    r.2.1 = .error "KeyError: Camera1" ∧
    ((r.1.getElementOpt .object "0").map Element.stream) = some none := by
  decide

/-- Claim C5, amended: the declared-stream check never reports true, so a
stream reference is never attached: with no declared stream map the check
reports nothing (falsy) and the call proceeds without attaching; with a
stream map present, a stream argument that is not one of the five
stream-type enumerator names makes the check raise a key-lookup error
(failing the call), while an enumerator name is compared — as an enum
member — against the string name keys and yields false. -/
theorem C5_amended_stream_never_attached :
    (∀ (s : String) (v : VCD), hasStream s v ≠ Except.ok true) ∧
    (∀ (s : String) (v : VCD) (md : Metadata) (strs : List (String × StreamRec)),
        v.metadata = some md → md.streams = some strs →
        s ∉ streamTypeNames →
        hasStream s v = Except.error ("KeyError: " ++ s)) := by
  constructor
  · intro s v
    unfold hasStream
    cases hm : v.metadata with
    | none => simp
    | some md =>
      cases hs : md.streams with
      | none => simp [hs]
      | some strs =>
        by_cases h : s ∈ streamTypeNames <;> simp [hs, h]
  · intro s v md strs h1 h2 h3
    simp [hasStream, h1, h2, h3]

/-- A closed instance of the amended claim C5 (the raising case). -/
theorem C5_amended_witness :
    hasStream "Camera1" (addStream "Camera1" "uri-c" "front camera" "camera" freshVCD) =
      Except.error ("KeyError: " ++ "Camera1") :=
  C5_amended_stream_never_attached.2 "Camera1" _ _ _ rfl rfl (by decide)

/-- Claim C6 (code bug): `add_frame_properties` and `add_odometry` create a
frames-map entry without extending the document-wide frame-interval list, so
after `add_frame_properties(5)` on a fresh document the frames map has key 5
while the interval list is still empty and does not cover 5 — the
"union of every frame ever touched" invariant fails. -/
theorem C6_frame_properties_leave_union_stale :
    (alookup 5 (addFrameProperties 5 (some "t0") none freshVCD).frames).isSome = true ∧
    (addFrameProperties 5 (some "t0") none freshVCD).frame_intervals = [] ∧
    isInsideFIs 5 (addFrameProperties 5 (some "t0") none freshVCD).frame_intervals = false ∧
    (alookup 7 (addOdometry 7 [("odometry", "x")] freshVCD).frames).isSome = true ∧
    (addOdometry 7 [("odometry", "x")] freshVCD).frame_intervals = [] := by
  decide

set_option maxRecDepth 4000 in
/-- Claim C7: for an object with interval (0,10), a bbox payload over (0,10)
and a text payload over (6,10), removing the frame range (0,5) leaves the
object's own frame-interval set as the single interval (6,10). -/
theorem C7_rm_by_frame_leaves_tail_interval :
    ((c7Doc.getElementOpt .object "0").map Element.frame_intervals) = some (some [(0, 10)]) ∧
    (((c7Doc.getElementOpt .object "0").bind Element.data_pointers).bind (alookup "position")) =
      some ⟨"bbox", [(0, 10)], none⟩ ∧
    (((c7Doc.getElementOpt .object "0").bind Element.data_pointers).bind (alookup "color")) =
      some ⟨"text", [(6, 10)], none⟩ ∧
    (((rmObjectByFrame "0" (0, 5) c7Doc).getElementOpt .object "0").map Element.frame_intervals) =
      some (some [(6, 10)]) := by
  decide

/-- Claim C8: `fuse` applied to a canonical interval list (valid, sorted,
disjoint and non-contiguous) returns the identical list; fusing the
contiguous pair (0,5),(6,10) yields the single interval (0,10); fusing the
gapped pair (0,5),(7,10) returns both intervals unchanged. -/
theorem C8_fuse_idempotent :
    (∀ l : List (Nat × Nat), Canonical l → fuseFI l = l) ∧
    fuseFI [(0, 5), (6, 10)] = [(0, 10)] ∧
    fuseFI [(0, 5), (7, 10)] = [(0, 5), (7, 10)] :=
  ⟨fun _ h => fuseFI_of_canonical h, by decide, by decide⟩

/-- A closed instance of claim C8's canonical-identity part. -/
theorem C8_witness :
    Canonical [(2, 4), (8, 9)] ∧ fuseFI [(2, 4), (8, 9)] = [(2, 4), (8, 9)] :=
  ⟨by decide, C8_fuse_idempotent.1 [(2, 4), (8, 9)] (by decide)⟩

/-- Claim C9: registering the same ontology URI twice on a fresh document —
the first call returns the sequential UID "0" and stores the single entry;
the second call returns no UID and leaves the (one-entry) ontology map
unchanged. -/
theorem C9_duplicate_ontology_refused (uri : String) :
    (addOntology uri freshVCD).2 = some "0" ∧
    (addOntology uri freshVCD).1.ontologies = some [("0", uri)] ∧
    addOntology uri (addOntology uri freshVCD).1 = ((addOntology uri freshVCD).1, none) := by
  refine ⟨rfl, rfl, ?_⟩
  simp [addOntology, freshVCD]

/-- Claim C10: `rm_element` on an existing element whose record has no
`frame_intervals` key raises a key-lookup error before any mutation (so the
element is not removed); and an element added with no frame value at all has
no `frame_intervals` key in its record, so removing it fails that way. -/
theorem C10_rm_element_requires_frame_intervals :
    (∀ (v : VCD) (t : ElementType) (uid : String) (e : Element),
        v.getElementOpt t uid = some e → e.frame_intervals = none →
        rmElement t uid v = (v, .error "KeyError: frame_intervals")) ∧
    (∀ name semanticType : String,
        ((addObject name semanticType none none none none freshVCD).1.getElementOpt .object "0") =
          some { Element.emptyElem with name := some name, type := some semanticType } ∧
        rmElement .object "0" (addObject name semanticType none none none none freshVCD).1 =
          ((addObject name semanticType none none none none freshVCD).1,
            .error "KeyError: frame_intervals")) := by
  constructor
  · intro v t uid e hget hfi
    unfold VCD.getElementOpt at hget
    rcases hb : alookup t v.elements with _ | bucket
    · rw [hb] at hget
      simp at hget
    · rw [hb] at hget
      simp only [Option.some_bind] at hget
      have hhas : v.has t (some uid) = true := by
        simp only [VCD.has, hb, hget, Option.isSome_some]
      simp only [rmElement, hb, hhas, hget, hfi]
      simp
  · intro name semanticType
    exact ⟨rfl, rfl⟩

/-- A closed instance of claim C10's first part. -/
theorem C10_witness :
    rmElement .object "0" (addObject "person" "#Adult" none none none none freshVCD).1 =
      ((addObject "person" "#Adult" none none none none freshVCD).1,
        .error "KeyError: frame_intervals") :=
  C10_rm_element_requires_frame_intervals.1 _ .object "0"
    { Element.emptyElem with name := some "person", type := some "#Adult" } (by decide) rfl

/-- A closed instance of claim C9. -/
theorem C9_witness :
    (addOntology "http://example.org/ontology" freshVCD).2 = some "0" ∧
    (addOntology "http://example.org/ontology" freshVCD).1.ontologies =
      some [("0", "http://example.org/ontology")] ∧
    addOntology "http://example.org/ontology"
        (addOntology "http://example.org/ontology" freshVCD).1 =
      ((addOntology "http://example.org/ontology" freshVCD).1, none) :=
  C9_duplicate_ontology_refused "http://example.org/ontology"
